import Mathlib

/-!
Shallow embedding of the SAP chat frontend (`src/frontend/src/App.jsx`).

The component's observable state is five React `useState` cells:
`messages`, `input`, `isThinking`, `imageBase64`, `imagePreview`.
The event handlers (`sendMessage`, `handlePaste`, `handleFile`, and the
attachment-removal button's onClick) are embedded as pure state
transformers.  `sendMessage` is split at its single suspension point
(the `await fetch` / `await res.json()`): `sendMessage` below is the
synchronous prefix up to and including the dispatch of the request, and
`sendMessageSettle` is the continuation that runs when the call settles.

JavaScript specifics modelled explicitly:
* string truthiness (`""` is falsy, any other string truthy);
* `fetch` rejects only on network failure — an HTTP response with a
  non-2xx status still *resolves*, and `res.json()` then rejects only
  if the body is not valid JSON;
* a missing `answer` field on the parsed body gives `undefined`, which
  we model as `none` in `Turn.text : Option String`.
-/

namespace SAP

/-- Role of a conversation turn: `"user"` or `"assistant"` in the source. -/
inductive Role where
  | user
  | assistant
deriving DecidableEq, Repr

/-- One message of the transcript: `{ role, text, image }` in `App.jsx`.
`text` is `Option String` because the source can store the JavaScript
value `undefined` there (`data.answer` when the field is absent), which
we model as `none`; an ordinary string is `some s`.  `image` is the
object-URL preview reference or `null`. -/
structure Turn where
  role : Role
  text : Option String
  image : Option String
deriving DecidableEq, Repr

/-- The component state: the five `useState` cells of `App`. -/
structure AppState where
  messages : List Turn
  input : String
  isThinking : Bool
  imageBase64 : Option String
  imagePreview : Option String
deriving DecidableEq, Repr

/-- The JSON request body built by `sendMessage`
(`{ text, image_base64, session_id }`); `none` models JSON `null`. -/
structure Payload where
  text : Option String
  image_base64 : Option String
  session_id : String
deriving DecidableEq, Repr

/-- A file as the handlers see it: its declared MIME `type`, the base64
string `fileToBase64` produces from its contents (data-URL prefix
already stripped), and the reference `URL.createObjectURL` returns. -/
structure JsFile where
  type : String
  base64 : String
  objectURL : String
deriving DecidableEq, Repr

/-- JavaScript truthiness of a string: `""` is falsy. -/
def truthyStr (s : String) : Bool := s ≠ ""

/-- JavaScript truthiness of a nullable string (`null`/`undefined` and
`""` are falsy). -/
def truthyOptStr : Option String → Bool
  | none => false
  | some s => truthyStr s

/-- `a || b` on strings: `a` if truthy, else `b`. -/
def jsOrStr (a b : String) : String := if truthyStr a then a else b

/-- `s || null` on a string: `null` when `s` is falsy. -/
def jsStrOrNull (s : String) : Option String :=
  if truthyStr s then some s else none

/-- `a || null` on a nullable string: collapses `some ""` to `null`. -/
def jsOrNull (a : Option String) : Option String :=
  if truthyOptStr a then a else none

/-- JavaScript `String.prototype.trim`: drop leading and trailing
whitespace.  Written over the character list so that the kernel can
evaluate it on literals. -/
def jsTrim (s : String) : String :=
  ⟨((s.data.dropWhile Char.isWhitespace).reverse.dropWhile Char.isWhitespace).reverse⟩

/-- JavaScript `String.prototype.startsWith`: `pre` is a prefix of `s`.
Written over the character list so that the kernel can evaluate it. -/
def jsStartsWith (s pre : String) : Bool := pre.data.isPrefixOf s.data

/-- Result of the HTTP body as `res.json()` sees it: either the body is
not valid JSON (the promise rejects), or it parses and the `answer`
field is a string or absent (`undefined`). -/
inductive JsonBody where
  | malformed
  | object (answer : Option String)
deriving DecidableEq, Repr

/-- How the dispatched `fetch` settles.  `fetch` itself rejects only on
network-level failure; any HTTP response — 2xx or not — resolves with
its status and body. -/
inductive FetchOutcome where
  | networkError
  | response (status : Nat) (body : JsonBody)
deriving DecidableEq, Repr

/-- Synchronous prefix of `sendMessage` (App.jsx lines 51–75): the
guard `if (!input.trim() && !imageBase64) return;`, the append of the
user turn, the payload construction, the clearing of draft and
attachment, and `setIsThinking(true)`.  The second component is the
dispatched request's payload, `none` when the guard returned early and
no request was issued. -/
def sendMessage (s : AppState) : AppState × Option Payload :=
  if !truthyStr (jsTrim s.input) && !truthyOptStr s.imageBase64 then
    (s, none)
  else
    let userTurn : Turn :=
      { role := .user, text := some (jsOrStr s.input ""), image := s.imagePreview }
    let payload : Payload :=
      { text := jsStrOrNull s.input
        image_base64 := jsOrNull s.imageBase64
        session_id := "sap-session-1" }
    ({ s with
        messages := s.messages ++ [userTurn]
        input := ""
        imageBase64 := none
        imagePreview := none
        isThinking := true },
      some payload)

/-- Continuation of `sendMessage` after the call settles (lines 77–91).
If `fetch` resolved and the body parsed as JSON, the `try` block
completes and appends `{ role: "assistant", text: data.answer, image:
null }` — the HTTP status is never examined.  If `fetch` rejected or
`res.json()` rejected, the `catch` block appends the fixed error turn.
The `finally` block clears the thinking flag in every case. -/
def sendMessageSettle (s : AppState) (o : FetchOutcome) : AppState :=
  match o with
  | .response _ (.object ans) =>
      { s with
          messages := s.messages ++ [{ role := .assistant, text := ans, image := none }]
          isThinking := false }
  | _ =>
      { s with
          messages := s.messages ++
            [{ role := .assistant, text := some "Error contacting backend.", image := none }]
          isThinking := false }

/-- A full submit: the synchronous phase, then — only if a request was
actually dispatched — the settlement continuation. -/
def sendMessageRun (s : AppState) (o : FetchOutcome) : AppState :=
  match sendMessage s with
  | (s', none) => s'
  | (s', some _) => sendMessageSettle s' o

/-- `handlePaste` (lines 33–48): find the first clipboard item whose
type starts with `"image/"`; if found, store its base64 encoding and
object URL as the pending attachment, otherwise do nothing. -/
def handlePaste (s : AppState) (items : List JsFile) : AppState :=
  match items.find? (fun i => jsStartsWith i.type "image/") with
  | some file =>
      { s with imageBase64 := some file.base64, imagePreview := some file.objectURL }
  | none => s

/-- `handleFile` (lines 95–101): `e.target.files?.[0]` may be absent;
a present file is accepted only when its type starts with `"image/"`. -/
def handleFile (s : AppState) (file : Option JsFile) : AppState :=
  match file with
  | some f =>
      if jsStartsWith f.type "image/" then
        { s with imageBase64 := some f.base64, imagePreview := some f.objectURL }
      else s
  | none => s

/-- The ✕ button on the preview (lines 188–196):
`setImageBase64(null); setImagePreview(null)`. -/
def removeAttachment (s : AppState) : AppState :=
  { s with imageBase64 := none, imagePreview := none }

end SAP

namespace SAP

/-- Trimming the empty string gives the empty string. -/
theorem jsTrim_empty : jsTrim "" = "" := by decide

/-- C2: if the draft is empty after trimming and no pending attachment
exists, `sendMessage` is a no-op: the state is returned unchanged (no
Turn appended, draft/attachment/thinking flag untouched) and no request
payload is produced, i.e. no network call is issued. -/
theorem C2_empty_submit_noop (s : AppState)
    (h1 : jsTrim s.input = "") (h2 : s.imageBase64 = none) :
    sendMessage s = (s, none) := by
  simp [sendMessage, truthyStr, truthyOptStr, h1, h2]

theorem C2_empty_submit_noop_witness :
    sendMessage ⟨[], "   ", false, none, none⟩ = (⟨[], "   ", false, none, none⟩, none) :=
  C2_empty_submit_noop ⟨[], "   ", false, none, none⟩ (by decide) rfl

/-- C3: submitting a draft that is non-empty after trimming with no
pending attachment appends exactly one user Turn carrying the draft
text and no image, and dispatches exactly one request whose payload has
`text` equal to the draft and `image_base64` null. -/
theorem C3_text_only_submit (s : AppState)
    (h1 : jsTrim s.input ≠ "") (h2 : s.imageBase64 = none) (h3 : s.imagePreview = none) :
    (sendMessage s).1.messages
        = s.messages ++ [{ role := .user, text := some s.input, image := none }] ∧
    (sendMessage s).2
        = some { text := some s.input, image_base64 := none, session_id := "sap-session-1" } := by
  have hin : s.input ≠ "" := fun h => h1 (by rw [h]; exact jsTrim_empty)
  simp [sendMessage, truthyStr, truthyOptStr, jsOrStr, jsStrOrNull, jsOrNull, h1, h2, h3, hin]

theorem C3_text_only_submit_witness :
    (sendMessage ⟨[], "hello", false, none, none⟩).1.messages
        = [{ role := .user, text := some "hello", image := none }] ∧
    (sendMessage ⟨[], "hello", false, none, none⟩).2
        = some { text := some "hello", image_base64 := none, session_id := "sap-session-1" } :=
  C3_text_only_submit ⟨[], "hello", false, none, none⟩ (by decide) rfl rfl

/-- C4: submitting with a pending attachment (non-empty base64 payload
`b`, preview reference `p`) and an empty draft appends exactly one user
Turn with text `""` and image `p`, and the request payload has `text`
null and `image_base64` equal to `b`. -/
theorem C4_image_only_submit (s : AppState) (b p : String)
    (h1 : s.input = "") (h2 : s.imageBase64 = some b) (h3 : s.imagePreview = some p)
    (h4 : b ≠ "") :
    (sendMessage s).1.messages
        = s.messages ++ [{ role := .user, text := some "", image := some p }] ∧
    (sendMessage s).2
        = some { text := none, image_base64 := some b, session_id := "sap-session-1" } := by
  simp [sendMessage, truthyStr, truthyOptStr, jsOrStr, jsStrOrNull, jsOrNull, h1, h2, h3, h4]

theorem C4_image_only_submit_witness :
    (sendMessage ⟨[], "", false, some "QUJD", some "ref1"⟩).1.messages
        = [{ role := .user, text := some "", image := some "ref1" }] ∧
    (sendMessage ⟨[], "", false, some "QUJD", some "ref1"⟩).2
        = some { text := none, image_base64 := some "QUJD", session_id := "sap-session-1" } :=
  C4_image_only_submit ⟨[], "", false, some "QUJD", some "ref1"⟩ "QUJD" "ref1"
    rfl rfl rfl (by decide)

/-- C5: ingesting a new image — by paste (`handlePaste` selecting the
first clipboard item of image type) or by the file picker
(`handleFile`) — stores exactly the new image's base64 payload and
preview reference, regardless of the prior state: any previously
pending attachment is replaced.  The state holds at most one
`imageBase64`/`imagePreview` pair by construction, so no reachable
state contains two coexisting attachments. -/
theorem C5_new_image_replaces_pending (s : AppState)
    (items : List JsFile) (f g : JsFile)
    (hf : items.find? (fun i => jsStartsWith i.type "image/") = some f)
    (hg : jsStartsWith g.type "image/" = true) :
    (handlePaste s items).imageBase64 = some f.base64 ∧
    (handlePaste s items).imagePreview = some f.objectURL ∧
    (handleFile s (some g)).imageBase64 = some g.base64 ∧
    (handleFile s (some g)).imagePreview = some g.objectURL := by
  simp [handlePaste, handleFile, hf, hg]

theorem C5_new_image_replaces_pending_witness :
    (handlePaste ⟨[], "", false, some "OLD", some "refOld"⟩
        [⟨"image/png", "NEW", "refNew"⟩]).imageBase64 = some "NEW" ∧
    (handlePaste ⟨[], "", false, some "OLD", some "refOld"⟩
        [⟨"image/png", "NEW", "refNew"⟩]).imagePreview = some "refNew" ∧
    (handleFile ⟨[], "", false, some "OLD", some "refOld"⟩
        (some ⟨"image/jpeg", "NEW2", "refNew2"⟩)).imageBase64 = some "NEW2" ∧
    (handleFile ⟨[], "", false, some "OLD", some "refOld"⟩
        (some ⟨"image/jpeg", "NEW2", "refNew2"⟩)).imagePreview = some "refNew2" :=
  C5_new_image_replaces_pending ⟨[], "", false, some "OLD", some "refOld"⟩
    [⟨"image/png", "NEW", "refNew"⟩] ⟨"image/png", "NEW", "refNew"⟩
    ⟨"image/jpeg", "NEW2", "refNew2"⟩ (by decide) (by decide)

/-- C6: the attachment-removal control clears both representations of
the pending attachment in one state update (the embedding's single
transformer mirrors the two batched `setState` calls of the onClick,
so no observable intermediate state has one cleared without the
other), and leaves the transcript, the draft and the thinking flag
unchanged. -/
theorem C6_remove_clears_both (s : AppState) :
    (removeAttachment s).imageBase64 = none ∧
    (removeAttachment s).imagePreview = none ∧
    (removeAttachment s).messages = s.messages ∧
    (removeAttachment s).input = s.input ∧
    (removeAttachment s).isThinking = s.isThinking := by
  simp [removeAttachment]

/-- C7: whenever the submit guard passes (the trimmed draft is
non-empty, or a pending attachment with a truthy base64 payload
exists), the synchronous phase of `sendMessage` clears the draft,
clears both attachment representations and raises the thinking flag —
and the settlement continuation of the full run only ever sees that
already-cleared state, so the clearing happens before the call
settles. -/
theorem C7_submit_clears_synchronously (s : AppState) (o : FetchOutcome)
    (h : jsTrim s.input ≠ "" ∨ ∃ b, s.imageBase64 = some b ∧ b ≠ "") :
    (sendMessage s).1.input = "" ∧
    (sendMessage s).1.imageBase64 = none ∧
    (sendMessage s).1.imagePreview = none ∧
    (sendMessage s).1.isThinking = true ∧
    sendMessageRun s o = sendMessageSettle (sendMessage s).1 o := by
  have hg : (!truthyStr (jsTrim s.input) && !truthyOptStr s.imageBase64) = false := by
    rcases h with h | ⟨b, hb, hbne⟩
    · simp [truthyStr, h]
    · simp [truthyOptStr, truthyStr, hb, hbne]
  simp [sendMessage, sendMessageRun, hg]

theorem C7_submit_clears_synchronously_witness :
    (sendMessage ⟨[], "hi", false, none, none⟩).1.input = "" ∧
    (sendMessage ⟨[], "hi", false, none, none⟩).1.imageBase64 = none ∧
    (sendMessage ⟨[], "hi", false, none, none⟩).1.imagePreview = none ∧
    (sendMessage ⟨[], "hi", false, none, none⟩).1.isThinking = true ∧
    sendMessageRun ⟨[], "hi", false, none, none⟩ .networkError
      = sendMessageSettle (sendMessage ⟨[], "hi", false, none, none⟩).1 .networkError :=
  C7_submit_clears_synchronously ⟨[], "hi", false, none, none⟩ .networkError
    (Or.inl (by decide))

/-- C8: when the dispatched call resolves (any HTTP status) and the
body parses as JSON with answer `x`, the settlement appends exactly one
assistant Turn with text `x` and no image, and clears the thinking
flag; nothing else changes. -/
theorem C8_success_appends_answer (s : AppState) (status : Nat) (x : String) :
    sendMessageSettle s (.response status (.object (some x)))
      = { s with
            messages := s.messages ++ [{ role := .assistant, text := some x, image := none }]
            isThinking := false } := by
  rfl

/-- C9: the file-picker handler ignores a missing file and a file whose
declared type does not start with `"image/"`: the whole state —
pending attachment, draft, transcript, thinking flag — is returned
unchanged and no error Turn is appended. -/
theorem C9_non_image_file_noop (s : AppState) (f : Option JsFile)
    (h : ∀ g, f = some g → jsStartsWith g.type "image/" = false) :
    handleFile s f = s := by
  cases f with
  | none => rfl
  | some g => simp [handleFile, h g rfl]

theorem C9_non_image_file_noop_witness :
    handleFile ⟨[], "draft", false, some "KEEP", some "refKeep"⟩
        (some ⟨"text/plain", "x", "y"⟩)
      = ⟨[], "draft", false, some "KEEP", some "refKeep"⟩ :=
  C9_non_image_file_noop ⟨[], "draft", false, some "KEEP", some "refKeep"⟩
    (some ⟨"text/plain", "x", "y"⟩)
    (fun g hg => by cases hg; decide)

/-- C10: when the draft is non-empty but whitespace-only and a pending
attachment (truthy base64 `b`) exists, `sendMessage` proceeds —
trimming is used only in the guard — and both the appended user Turn
text and the payload text field carry the untrimmed whitespace string
`s.input` itself (not `""` and not null, since `s.input ≠ ""`). -/
theorem C10_whitespace_draft_untrimmed (s : AppState) (b : String)
    (h1 : s.input ≠ "") (h2 : jsTrim s.input = "")
    (h3 : s.imageBase64 = some b) (h4 : b ≠ "") :
    (sendMessage s).1.messages
        = s.messages ++ [{ role := .user, text := some s.input, image := s.imagePreview }] ∧
    (sendMessage s).2
        = some { text := some s.input, image_base64 := some b
                 session_id := "sap-session-1" } := by
  simp [sendMessage, truthyStr, truthyOptStr, jsOrStr, jsStrOrNull, jsOrNull,
    h1, h2, h3, h4]

theorem C10_whitespace_draft_untrimmed_witness :
    (sendMessage ⟨[], "   ", false, some "QQ", some "ref2"⟩).1.messages
        = [{ role := .user, text := some "   ", image := some "ref2" }] ∧
    (sendMessage ⟨[], "   ", false, some "QQ", some "ref2"⟩).2
        = some { text := some "   ", image_base64 := some "QQ"
                 session_id := "sap-session-1" } :=
  C10_whitespace_draft_untrimmed ⟨[], "   ", false, some "QQ", some "ref2"⟩ "QQ"
    (by decide) (by decide) rfl (by decide)

/-- C1 (counterexample): the claim asserts that a non-2xx HTTP status
yields the assistant Turn "Error contacting backend.".  It does not:
`fetch` resolves on a non-2xx response, and if the body parses as JSON
the `try` block completes.  Submitting the draft "hi" and receiving a
status-500 response whose JSON body lacks an `answer` field appends an
assistant Turn whose text is `undefined` (modelled `none`), not the
error message — and `none` differs from the error text. -/
theorem C1_counterexample :
    sendMessageRun ⟨[], "hi", false, none, none⟩ (.response 500 (.object none))
      = ⟨[⟨.user, some "hi", none⟩, ⟨.assistant, none, none⟩], "", false, none, none⟩ ∧
    (Turn.mk .assistant none none).text ≠ some "Error contacting backend." := by
  exact ⟨by decide, by decide⟩

/-- C1 (amended): the error Turn appears exactly when the awaited call
throws — the network is unreachable, or the response body fails JSON
parsing.  In those cases exactly one assistant Turn with text
"Error contacting backend." and no image is appended and the thinking
flag returns to false.  A non-2xx status whose body parses as JSON is
not such a case: the parsed answer field is displayed instead. -/
theorem C1_error_turn_on_throw (s : AppState) (o : FetchOutcome)
    (h : o = .networkError ∨ ∃ st, o = .response st .malformed) :
    sendMessageSettle s o
      = { s with
            messages := s.messages ++
              [{ role := .assistant, text := some "Error contacting backend."
                 image := none }]
            isThinking := false } := by
  rcases h with h | ⟨st, h⟩ <;> subst h <;> rfl

theorem C1_error_turn_on_throw_witness :
    sendMessageSettle ⟨[], "", true, none, none⟩ .networkError
      = ⟨[⟨.assistant, some "Error contacting backend.", none⟩], "", false, none, none⟩ :=
  C1_error_turn_on_throw ⟨[], "", true, none, none⟩ .networkError (Or.inl rfl)

end SAP
